import Mathlib

/-!
Shallow embedding of `scripts/validate_package.py` from the conestack
monorepo: the phase-based package-validation orchestrator.

The filesystem touched by the script is modelled by `FSState`:
  * `venv p`      — the sandbox (venv) of package `p`: `none` when the
                    directory `sources/p/venv` is absent, otherwise a
                    `Venv` record carrying a creation generation (so that
                    distinct creations are distinguishable) and whether
                    `venv/bin/python` exists.
  * `localDist p` — the files in `sources/p/dist`: `none` when absent.
  * `pool`        — the filenames in the shared root `dist/` directory.
  * `pinFile`     — the lines of `constraints-validate.txt` (`none` when
                    the file was never written).
  * `srcExists p` — whether `sources/p` exists.
  * `clock`       — a fresh-generation counter for venv creation.

External tools (python -m venv / pip / build / twine / pyroma / pytest,
shutil.copy2) are modelled by an `Oracle` giving each invocation's result.
String manipulation from the Python source (`str.split`, `str.strip`,
`str.lower`, `str.replace`, `int(...)`, the `in` operator, glob patterns
of the shape `prefix-*.suffix`) is embedded by executable helpers with
Python semantics, so that everything evaluates on concrete inputs.
-/

/-- Python `sub in s` (substring containment) on character lists. -/
def listInfixOf (sub : List Char) : List Char → Bool
  | [] => sub.isEmpty
  | c :: rest => sub.isPrefixOf (c :: rest) || listInfixOf sub rest

/-- Python `sub in s` for strings. -/
def pyContains (s sub : String) : Bool := listInfixOf sub.data s.data

/-- Fuel-driven worker for Python `str.split(sep)` with nonempty `sep`:
splits on every non-overlapping occurrence, left to right. -/
def splitGo (sep : List Char) : Nat → List Char → List Char → List (List Char)
  | _, [], acc => [acc.reverse]
  | 0, cs, acc => [acc.reverse ++ cs]
  | Nat.succ fuel, c :: rest, acc =>
    if sep.isPrefixOf (c :: rest) then
      acc.reverse :: splitGo sep fuel (List.drop (sep.length - 1) rest) []
    else splitGo sep fuel rest (c :: acc)

/-- Python `s.split(sep)` for a nonempty separator. -/
def pySplit (s sep : String) : List String :=
  (splitGo sep.data s.data.length s.data []).map String.mk

/-- Python `s.lower()` (ASCII case fold, as used on pyroma output). -/
def pyLower (s : String) : String := String.mk (s.data.map Char.toLower)

/-- Python `s.strip()`. -/
def pyStrip (s : String) : String :=
  String.mk
    (((s.data.dropWhile Char.isWhitespace).reverse.dropWhile
        Char.isWhitespace).reverse)

/-- Python `s.startswith(pre)` / glob literal prefix match. -/
def pyStartsWith (s pre : String) : Bool := pre.data.isPrefixOf s.data

/-- Python `s.endswith(suf)` / glob literal suffix match. -/
def pyEndsWith (s suf : String) : Bool := suf.data.isSuffixOf s.data

/-- Value of a nonempty all-digit character list. -/
def digitsVal (cs : List Char) : Option Nat :=
  if cs = [] then none
  else if cs.all Char.isDigit then
    some (cs.foldl (fun a c => a * 10 + (c.toNat - 48)) 0)
  else none

/-- Python `int(s)` on a decimal string literal: optional surrounding
whitespace, optional sign, decimal digits; `none` models `ValueError`. -/
def pyInt (s : String) : Option Int :=
  match (pyStrip s).data with
  | '-' :: rest => (digitsVal rest).map (fun n => -(n : Int))
  | '+' :: rest => (digitsVal rest).map (fun n => (n : Int))
  | cs => (digitsVal cs).map (fun n => (n : Int))

/-- Python `s.replace(old, new)` for a nonempty `old`
(equal to `new.join(s.split(old))`). -/
def pyReplace (s old new : String) : String :=
  String.mk (List.intercalate new.data ((pySplit s old).map String.data))

/-- Match of a filename against the glob pattern `pre*suf` (as used with
`pathlib.Path.glob`, where `*` matches any, possibly empty, sequence of
characters of a single path component). -/
def globMatch (pre suf name : String) : Bool :=
  pyStartsWith name pre && pyEndsWith name suf &&
    decide (pre.length + suf.length ≤ name.length)

/-- A sandbox (venv directory) for one package: `gen` is the creation
generation distinguishing it from any earlier sandbox; `pythonOk` records
whether `venv/bin/python` exists inside it. -/
structure Venv where
  gen : Nat
  pythonOk : Bool
  deriving DecidableEq

/-- The on-disk state the validation script reads and writes. -/
structure FSState where
  clock : Nat
  venv : String → Option Venv
  localDist : String → Option (List String)
  pool : List String
  pinFile : Option (List String)
  srcExists : String → Bool

/-- `sources/pkg/venv` exists (`venv_path.exists()` in the source). -/
def FSState.venvExists (s : FSState) (pkg : String) : Bool :=
  (s.venv pkg).isSome

/-- `sources/pkg/dist` exists (`dist_dir.exists()` in the source). -/
def FSState.distExists (s : FSState) (pkg : String) : Bool :=
  (s.localDist pkg).isSome

/-- Replace the sandbox entry of one package. -/
def FSState.setVenv (s : FSState) (pkg : String) (v : Option Venv) : FSState :=
  { s with venv := fun p => if p = pkg then v else s.venv p }

/-- Replace the local `dist` entry of one package. -/
def FSState.setDist (s : FSState) (pkg : String) (d : Option (List String)) :
    FSState :=
  { s with localDist := fun p => if p = pkg then d else s.localDist p }

/-- `shutil.copy2` of a file into the shared root `dist/` directory:
overwrites a file of the same name, otherwise adds it. -/
def poolInsert (f : String) (pool : List String) : List String :=
  if f ∈ pool then pool else pool ++ [f]

/-- Results of the external commands one run of the script may issue
(`subprocess.run` results, `shutil.copy2` outcomes, `shutil.rmtree`
outcomes).  `buildBackend = none` models the `python -m build` command
failing; `some d` models it succeeding having left the local dist
directory in state `d` (`none` = directory absent, `some files` =
directory with the given files).  `pyroma = none` models the pyroma
command exiting nonzero; `some out` models success with output `out`. -/
structure Oracle where
  venvCreateOk : Bool
  venvPythonOk : Bool
  pipUpgradeOk : Bool
  toolsInstallOk : Bool
  buildBackend : Option (Option (List String))
  copyWheelOk : Bool
  copySdistOk : Bool
  twineOk : Bool
  pyroma : Option String
  pipInstallOk : Bool
  pytestOk : Bool
  rmVenvOk : Bool
  rmDistOk : Bool

/-- Result of one phase function: `exit c s` is an ordinary return with
exit code `c` in state `s`; `crash s` is an uncaught Python exception
escaping the phase (reaching `main`'s generic `except Exception`
handler). -/
inductive PhaseResult where
  | exit (code : Nat) (s : FSState)
  | crash (s : FSState)

/-- Exit code of a phase result as observed by a standalone invocation:
an uncaught exception is turned into exit code 2 by `main`'s generic
handler. -/
def exitOf : PhaseResult → Nat × FSState
  | PhaseResult.exit c s => (c, s)
  | PhaseResult.crash s => (2, s)

/-- `phase_env` (validate_package.py lines 279-340): unconditionally
remove any existing venv, create a fresh one, upgrade pip, install the
tool chain.  Returns 0 on success and 1 on any failure. -/
def phase_env (pkg : String) (o : Oracle) (s : FSState) : PhaseResult :=
  let s1 := s.setVenv pkg none
  if o.venvCreateOk = false then PhaseResult.exit 1 s1
  else
    let s2 := { s1.setVenv pkg (some { gen := s.clock, pythonOk := o.venvPythonOk })
                  with clock := s.clock + 1 }
    if o.venvPythonOk = false then PhaseResult.exit 1 s2
    else if o.pipUpgradeOk = false then PhaseResult.exit 1 s2
    else if o.toolsInstallOk = false then PhaseResult.exit 1 s2
    else PhaseResult.exit 0 s2

/-- One `name==version` line of the constraints file, derived from a
wheel filename: Python `parts = whl.name.split("-")`,
`parts[0].replace("_", "-")`, `parts[1]`.  `none` models the uncaught
`IndexError` when the filename has no `-`. -/
def constraintLine (whl : String) : Option String :=
  let parts := pySplit whl "-"
  match parts.get? 1 with
  | none => none
  | some version =>
    some (pyReplace (parts.headD "") "_" "-" ++ "==" ++ version)

/-- The constraints-file lines generated from the pooled wheel filenames,
in order.  `Except.error written` models the loop crashing with an
`IndexError` after having written the lines `written`. -/
def constraintsOf : List String → Except (List String) (List String)
  | [] => Except.ok []
  | w :: ws =>
    match constraintLine w with
    | none => Except.error []
    | some l =>
      match constraintsOf ws with
      | Except.ok ls => Except.ok (l :: ls)
      | Except.error ls => Except.error (l :: ls)

/-- Tail of `phase_build` after promotion: full rewrite of
`constraints-validate.txt` from the current `*.whl` files of the shared
pool (`open(constraints_path, "w")`), then return 0. -/
def buildFinish (s : FSState) : PhaseResult :=
  match constraintsOf (s.pool.filter (fun n => pyEndsWith n ".whl")) with
  | Except.error written => PhaseResult.crash { s with pinFile := some written }
  | Except.ok lines => PhaseResult.exit 0 { s with pinFile := some lines }

/-- `phase_build` (lines 343-433): require the venv and its python
(else 2), clear the local dist directory, invoke the build backend
(failure is 1), require a nonempty dist with at least one `*.whl` and one
`*.tar.gz` (else 1), copy the first wheel and first sdist into the shared
pool (copy failure is 1), then regenerate the pin file and return 0. -/
def phase_build (pkg : String) (o : Oracle) (s : FSState) : PhaseResult :=
  match s.venv pkg with
  | none => PhaseResult.exit 2 s
  | some v =>
    if v.pythonOk = false then PhaseResult.exit 2 s
    else
      match o.buildBackend with
      | none => PhaseResult.exit 1 (s.setDist pkg none)
      | some none => PhaseResult.exit 1 (s.setDist pkg none)
      | some (some files) =>
          if files = [] then PhaseResult.exit 1 (s.setDist pkg (some files))
          else
            match (files.filter (fun n => pyEndsWith n ".whl")).head?,
                  (files.filter (fun n => pyEndsWith n ".tar.gz")).head? with
            | none, _ => PhaseResult.exit 1 (s.setDist pkg (some files))
            | some _, none => PhaseResult.exit 1 (s.setDist pkg (some files))
            | some wheelFile, some sdistFile =>
              if o.copyWheelOk = false then
                PhaseResult.exit 1 (s.setDist pkg (some files))
              else if o.copySdistOk = false then
                PhaseResult.exit 1
                  { s.setDist pkg (some files) with
                      pool := poolInsert wheelFile s.pool }
              else
                buildFinish
                  { s.setDist pkg (some files) with
                      pool := poolInsert sdistFile (poolInsert wheelFile s.pool) }

/-- Guard of the pyroma score-parsing loop:
`"rating:" in line.lower() and "/10" in line`. -/
def ratingLineHit (line : String) : Bool :=
  pyContains (pyLower line) "rating:" && pyContains line "/10"

/-- Body of the parse attempt:
`int(line.split(":")[1].split("/10")[0].strip())`,
with `none` for the caught `ValueError`/`IndexError`. -/
def parseScoreLine (line : String) : Option Int :=
  match (pySplit line ":").get? 1 with
  | none => none
  | some part => pyInt (pyStrip ((pySplit part "/10").headD ""))

/-- The score-parsing loop of `phase_check`: scan all output lines; each
matching, parseable line overwrites the score (the last one wins);
unparseable lines are skipped. -/
def parsePyromaScore (out : String) : Option Int :=
  (pySplit out "\n").foldl
    (fun acc line =>
      if ratingLineHit line then
        match parseScoreLine line with
        | some n => some n
        | none => acc
      else acc)
    none

/-- `phase_check` (lines 436-515): require venv and local dist (else 2);
twine failure is 1; on pyroma success parse a score and fail (1) exactly
when a parsed score is below the threshold; a pyroma error or an
unparsed score leaves the phase successful (0). -/
def phase_check (pkg : String) (t : Int) (o : Oracle) (s : FSState) :
    PhaseResult :=
  if s.venvExists pkg = false then PhaseResult.exit 2 s
  else if s.distExists pkg = false then PhaseResult.exit 2 s
  else if o.twineOk = false then PhaseResult.exit 1 s
  else
    match o.pyroma with
    | none => PhaseResult.exit 0 s
    | some out =>
      match parsePyromaScore out with
      | none => PhaseResult.exit 0 s
      | some n => if n < t then PhaseResult.exit 1 s else PhaseResult.exit 0 s

/-- `find_artifact` of `phase_test` (lines 550-558): glob the shared pool
for `{package.replace(".", "_")}-*.whl` (or `-*.tar.gz`) and take the
first match; `none` models the raised `FileNotFoundError`. -/
def findArtifact (pool : List String) (pkg : String) (installFrom : String) :
    Option String :=
  (pool.filter (fun n =>
      globMatch (pyReplace pkg "." "_" ++ "-")
        (if installFrom = "wheel" then ".whl" else ".tar.gz") n)).head?

/-- `phase_test` (lines 518-612): require the venv (else 2) and a pooled
artifact of the requested kind matching the normalized package name
(else 2); pip-install failure and pytest failure are 1; otherwise 0. -/
def phase_test (pkg : String) (installFrom : String) (o : Oracle)
    (s : FSState) : PhaseResult :=
  if s.venvExists pkg = false then PhaseResult.exit 2 s
  else
    match findArtifact s.pool pkg installFrom with
    | none => PhaseResult.exit 2 s
    | some _ =>
      if o.pipInstallOk = false then PhaseResult.exit 1 s
      else if o.pytestOk = false then PhaseResult.exit 1 s
      else PhaseResult.exit 0 s

/-- `phase_clean` (lines 615-657): remove the venv and the local dist if
present, swallowing removal errors (a failed `rmtree` leaves the
directory and only warns); always returns 0. -/
def phase_clean (pkg : String) (o : Oracle) (s : FSState) : PhaseResult :=
  let s1 := if (s.venv pkg).isSome && o.rmVenvOk then s.setVenv pkg none else s
  let s2 :=
    if (s1.localDist pkg).isSome && o.rmDistOk then s1.setDist pkg none else s1
  PhaseResult.exit 0 s2

/-- The phase selector of the CLI (mutually exclusive, required). -/
inductive PhaseSel where
  | env | build | check | plainTest | clean | all

/-- One oracle per phase of a run (each phase issues its own external
commands). -/
structure AllOracles where
  env : Oracle
  build : Oracle
  check : Oracle
  testO : Oracle
  clean : Oracle

/-- The `--all` loop of `main` (lines 752-785): run
env, build, check, test, clean in order; on the first nonzero result
exit with `result if result != 2 else 1`; a crash anywhere is caught by
the generic handler (exit 2).  Also returns the list of phases that were
entered, in order. -/
def runAll (pkg : String) (t : Int) (installFrom : String) (os : AllOracles)
    (s : FSState) : Nat × FSState × List String :=
  match phase_env pkg os.env s with
  | PhaseResult.crash s1 => (2, s1, ["env"])
  | PhaseResult.exit r1 s1 =>
    if r1 ≠ 0 then ((if r1 = 2 then 1 else r1), s1, ["env"])
    else
      match phase_build pkg os.build s1 with
      | PhaseResult.crash s2 => (2, s2, ["env", "build"])
      | PhaseResult.exit r2 s2 =>
        if r2 ≠ 0 then ((if r2 = 2 then 1 else r2), s2, ["env", "build"])
        else
          match phase_check pkg t os.check s2 with
          | PhaseResult.crash s3 => (2, s3, ["env", "build", "check"])
          | PhaseResult.exit r3 s3 =>
            if r3 ≠ 0 then
              ((if r3 = 2 then 1 else r3), s3, ["env", "build", "check"])
            else
              match phase_test pkg installFrom os.testO s3 with
              | PhaseResult.crash s4 =>
                (2, s4, ["env", "build", "check", "test"])
              | PhaseResult.exit r4 s4 =>
                if r4 ≠ 0 then
                  ((if r4 = 2 then 1 else r4), s4,
                    ["env", "build", "check", "test"])
                else
                  match phase_clean pkg os.clean s4 with
                  | PhaseResult.crash s5 =>
                    (2, s5, ["env", "build", "check", "test", "clean"])
                  | PhaseResult.exit r5 s5 =>
                    if r5 ≠ 0 then
                      ((if r5 = 2 then 1 else r5), s5,
                        ["env", "build", "check", "test", "clean"])
                    else (0, s5, ["env", "build", "check", "test", "clean"])

/-- `main` (lines 671-825, named `mainEntry` here since Lean reserves `main`): verify the package directory exists (else
exit 2), then dispatch on the selected phase; a standalone phase's return
value is the process exit code, `--all` runs the loop above. -/
def mainEntry (pkg : String) (ph : PhaseSel) (t : Int) (installFrom : String)
    (os : AllOracles) (s : FSState) : Nat × FSState :=
  if s.srcExists pkg = false then (2, s)
  else
    match ph with
    | PhaseSel.all =>
      let r := runAll pkg t installFrom os s
      (r.1, r.2.1)
    | PhaseSel.env => exitOf (phase_env pkg os.env s)
    | PhaseSel.build => exitOf (phase_build pkg os.build s)
    | PhaseSel.check => exitOf (phase_check pkg t os.check s)
    | PhaseSel.plainTest => exitOf (phase_test pkg installFrom os.testO s)
    | PhaseSel.clean => exitOf (phase_clean pkg os.clean s)

/-! ### Shared inversion lemmas about the phase functions -/

/-- `phase_check` never modifies the filesystem. -/
theorem phase_check_state_eq (pkg : String) (t : Int) (o : Oracle)
    (s : FSState) (c : Nat) (s' : FSState)
    (h : phase_check pkg t o s = PhaseResult.exit c s') : s' = s := by
  unfold phase_check at h
  repeat' split at h
  all_goals (injection h with h1 h2; exact h2.symm)

/-- Inversion of a successful `phase_env` run: the package now has a
fresh sandbox (generation `s.clock`) with a working python, the clock
advanced, and nothing else changed. -/
theorem phase_env_success_inv (pkg : String) (o : Oracle) (s s1 : FSState)
    (h : phase_env pkg o s = PhaseResult.exit 0 s1) :
    s1.venv pkg = some { gen := s.clock, pythonOk := true } ∧
    s1.clock = s.clock + 1 ∧
    (∀ q, q ≠ pkg → s1.venv q = s.venv q) ∧
    s1.localDist = s.localDist ∧ s1.pool = s.pool ∧
    s1.pinFile = s.pinFile ∧ s1.srcExists = s.srcExists := by
  simp only [phase_env] at h
  split at h
  · exact absurd (PhaseResult.exit.inj h).1 (by decide)
  · rename_i hcreate
    split at h
    · exact absurd (PhaseResult.exit.inj h).1 (by decide)
    · rename_i hpy
      split at h
      · exact absurd (PhaseResult.exit.inj h).1 (by decide)
      · split at h
        · exact absurd (PhaseResult.exit.inj h).1 (by decide)
        · have hs := (PhaseResult.exit.inj h).2
          subst hs
          have hpy' : o.venvPythonOk = true := by
            cases hob : o.venvPythonOk
            · exact absurd hob hpy
            · rfl
          refine ⟨?_, rfl, ?_, rfl, rfl, rfl, rfl⟩
          · simp [FSState.setVenv, hpy']
          · intro q hq
            simp [FSState.setVenv, hq]

/-- Inversion of a successful `phase_build` run: the backend produced a
nonempty local dist with a wheel and an sdist, both were promoted into
the shared pool, and the pin file was fully rewritten from the pooled
wheels. -/
theorem phase_build_success_inv (pkg : String) (o : Oracle) (s s' : FSState)
    (h : phase_build pkg o s = PhaseResult.exit 0 s') :
    ∃ files wheelFile sdistFile lines,
      o.buildBackend = some (some files) ∧ files ≠ [] ∧
      (files.filter (fun n => pyEndsWith n ".whl")).head? = some wheelFile ∧
      (files.filter (fun n => pyEndsWith n ".tar.gz")).head? = some sdistFile ∧
      constraintsOf ((poolInsert sdistFile (poolInsert wheelFile s.pool)).filter
          (fun n => pyEndsWith n ".whl")) = Except.ok lines ∧
      s'.clock = s.clock ∧ s'.venv = s.venv ∧
      s'.localDist pkg = some files ∧
      (∀ q, q ≠ pkg → s'.localDist q = s.localDist q) ∧
      s'.pool = poolInsert sdistFile (poolInsert wheelFile s.pool) ∧
      s'.pinFile = some lines ∧ s'.srcExists = s.srcExists ∧
      (s.venv pkg).isSome = true := by
  unfold phase_build at h
  split at h
  · exact absurd (PhaseResult.exit.inj h).1 (by decide)
  · rename_i v hv
    split at h
    · exact absurd (PhaseResult.exit.inj h).1 (by decide)
    · split at h
      · exact absurd (PhaseResult.exit.inj h).1 (by decide)
      · exact absurd (PhaseResult.exit.inj h).1 (by decide)
      · rename_i files hb
        split at h
        · exact absurd (PhaseResult.exit.inj h).1 (by decide)
        · rename_i hne
          split at h
          · exact absurd (PhaseResult.exit.inj h).1 (by decide)
          · exact absurd (PhaseResult.exit.inj h).1 (by decide)
          · rename_i wheelFile sdistFile hwheel hsdist
            split at h
            · exact absurd (PhaseResult.exit.inj h).1 (by decide)
            · split at h
              · exact absurd (PhaseResult.exit.inj h).1 (by decide)
              · unfold buildFinish at h
                split at h
                · exact absurd h (by simp)
                · rename_i lines hlines
                  have hs := (PhaseResult.exit.inj h).2
                  subst hs
                  refine ⟨files, wheelFile, sdistFile, lines, hb, hne, hwheel,
                    hsdist, ?_, rfl, rfl, ?_, ?_, rfl, rfl, rfl, ?_⟩
                  · exact hlines
                  · simp [FSState.setDist]
                  · intro q hq
                    simp [FSState.setDist, hq]
                  · simp [hv]

/-! ### Concrete scenario data used by witnesses -/

/-- An oracle on which every external command succeeds; the build backend
produces a wheel and an sdist for `pkg.a` version `1.0.0`, pyroma exits
nonzero. -/
def goodOracle : Oracle :=
  { venvCreateOk := true, venvPythonOk := true, pipUpgradeOk := true,
    toolsInstallOk := true,
    buildBackend :=
      some (some ["pkg_a-1.0.0-py3-none-any.whl", "pkg_a-1.0.0.tar.gz"]),
    copyWheelOk := true, copySdistOk := true, twineOk := true,
    pyroma := none, pipInstallOk := true, pytestOk := true,
    rmVenvOk := true, rmDistOk := true }

/-- A bare repository checkout: no sandboxes, no build output, empty
pool. -/
def emptyState : FSState :=
  { clock := 0, venv := fun _ => none, localDist := fun _ => none,
    pool := [], pinFile := none, srcExists := fun _ => true }

/-- A state in which env and build have already run for every package:
sandboxes with working pythons, local and pooled artifacts for
`pkg.a`. -/
def readyState : FSState :=
  { clock := 5, venv := fun _ => some { gen := 0, pythonOk := true },
    localDist :=
      fun _ => some ["pkg_a-1.0.0-py3-none-any.whl", "pkg_a-1.0.0.tar.gz"],
    pool := ["pkg_a-1.0.0-py3-none-any.whl", "pkg_a-1.0.0.tar.gz"],
    pinFile := none, srcExists := fun _ => true }

/-! ### The claims -/

/-- C9: for every package and starting state, the clean phase returns
success (0), removes at most the package's own sandbox and local
build-output directory (removal errors leave them in place and do not
change the outcome), and leaves the shared pool, the pin file and every
other package's state unchanged. -/
theorem clean_always_success_and_frame (pkg : String) (o : Oracle)
    (s : FSState) :
    ∃ s', phase_clean pkg o s = PhaseResult.exit 0 s' ∧
      s'.pool = s.pool ∧ s'.pinFile = s.pinFile ∧ s'.clock = s.clock ∧
      s'.srcExists = s.srcExists ∧
      (∀ q, q ≠ pkg → s'.venv q = s.venv q ∧ s'.localDist q = s.localDist q) ∧
      (s'.venv pkg = none ∨ s'.venv pkg = s.venv pkg) ∧
      (s'.localDist pkg = none ∨ s'.localDist pkg = s.localDist pkg) := by
  refine ⟨_, rfl, ?_, ?_, ?_, ?_, ?_, ?_, ?_⟩
  all_goals try intro q hq
  all_goals split <;> split <;>
    simp [FSState.setVenv, FSState.setDist, *]

/-- C7: if twine passed and the pyroma invocation itself errors (nonzero
exit), the check phase still returns success for every threshold; a tool
error never produces a validation failure. -/
theorem check_tool_error_still_success (pkg : String) (t : Int) (o : Oracle)
    (s : FSState) (hv : s.venvExists pkg = true) (hd : s.distExists pkg = true)
    (htw : o.twineOk = true) (hp : o.pyroma = none) :
    phase_check pkg t o s = PhaseResult.exit 0 s := by
  simp [phase_check, hv, hd, htw, hp]

/-- Witness for C7 at a concrete state and oracle. -/
theorem check_tool_error_still_success_witness :
    readyState.venvExists "pkg.a" = true ∧ goodOracle.pyroma = none ∧
    phase_check "pkg.a" 8 goodOracle readyState =
      PhaseResult.exit 0 readyState :=
  ⟨rfl, rfl,
    check_tool_error_still_success "pkg.a" 8 goodOracle readyState rfl rfl rfl
      rfl⟩

/-- C4: the test phase returns setup_error (2) in each of the two
precondition-violation states independently: missing sandbox, and
existing sandbox with no matching artifact of the requested kind in the
shared pool. -/
theorem test_preconditions_setup_error (pkg inst : String) (o : Oracle)
    (s : FSState) :
    (s.venvExists pkg = false →
      phase_test pkg inst o s = PhaseResult.exit 2 s) ∧
    (s.venvExists pkg = true → findArtifact s.pool pkg inst = none →
      phase_test pkg inst o s = PhaseResult.exit 2 s) := by
  constructor
  · intro h
    simp [phase_test, h]
  · intro hv hf
    simp [phase_test, hv, hf]

/-- Witness for C4: no sandbox in `emptyState`; sandbox but empty pool in
the second state. -/
theorem test_preconditions_setup_error_witness :
    emptyState.venvExists "pkg.a" = false ∧
    phase_test "pkg.a" "wheel" goodOracle emptyState =
      PhaseResult.exit 2 emptyState ∧
    { readyState with pool := [] }.venvExists "pkg.a" = true ∧
    phase_test "pkg.a" "wheel" goodOracle { readyState with pool := [] } =
      PhaseResult.exit 2 { readyState with pool := [] } :=
  ⟨rfl,
    (test_preconditions_setup_error "pkg.a" "wheel" goodOracle emptyState).1
      rfl,
    rfl,
    (test_preconditions_setup_error "pkg.a" "wheel" goodOracle
      { readyState with pool := [] }).2 rfl rfl⟩

/-- C2: given the metadata check passed and pyroma exited successfully,
the check phase fails (1) exactly when a score is parsed from a
`rating: N/10` line and it is below the threshold; a parsed score at or
above the threshold, or an unparseable output, is success.  Concretely:
`Final rating: 6/10` fails at threshold 8, passes at threshold 5, and an
output with no rating line passes at every threshold. -/
theorem check_score_threshold (pkg : String) (t : Int) (o : Oracle)
    (s : FSState) (out : String)
    (hv : s.venvExists pkg = true) (hd : s.distExists pkg = true)
    (htw : o.twineOk = true) (hp : o.pyroma = some out) :
    (phase_check pkg t o s = PhaseResult.exit 1 s ↔
      ∃ n, parsePyromaScore out = some n ∧ n < t) ∧
    ((∀ n, parsePyromaScore out = some n → t ≤ n) →
      phase_check pkg t o s = PhaseResult.exit 0 s) ∧
    phase_check pkg 8 { o with pyroma := some "Final rating: 6/10" } s =
      PhaseResult.exit 1 s ∧
    phase_check pkg 5 { o with pyroma := some "Final rating: 6/10" } s =
      PhaseResult.exit 0 s ∧
    (∀ t2 : Int,
      phase_check pkg t2 { o with pyroma := some "checks done, no score" } s =
        PhaseResult.exit 0 s) := by
  have h6 : parsePyromaScore "Final rating: 6/10" = some 6 := by decide
  have hno : parsePyromaScore "checks done, no score" = none := by decide
  refine ⟨?_, ?_, ?_, ?_, ?_⟩
  · simp only [phase_check, hv, hd, htw, hp]
    cases hps : parsePyromaScore out with
    | none => simp
    | some n =>
      by_cases hlt : n < t
      · simp [hlt]
      · simp [hlt]
  · intro hge
    simp only [phase_check, hv, hd, htw, hp]
    cases hps : parsePyromaScore out with
    | none => rfl
    | some n => simp [not_lt.mpr (hge n hps)]
  · simp [phase_check, hv, hd, htw, h6]
  · simp [phase_check, hv, hd, htw, h6]
  · intro t2
    simp [phase_check, hv, hd, htw, hno]

/-- The all-good oracle with a successful pyroma run scoring 6/10. -/
def scoreOracle : Oracle :=
  { goodOracle with pyroma := some "Final rating: 6/10" }

/-- Witness for C2 at a concrete state, oracle and output. -/
theorem check_score_threshold_witness :
    readyState.venvExists "pkg.a" = true ∧ scoreOracle.twineOk = true ∧
    phase_check "pkg.a" 8 scoreOracle readyState =
      PhaseResult.exit 1 readyState :=
  ⟨rfl, rfl,
    (check_score_threshold "pkg.a" 8 scoreOracle readyState
        "Final rating: 6/10" rfl rfl rfl rfl).1.mpr
      ⟨6, by decide, by decide⟩⟩

/-- C10: the test phase matches pool filenames against the package name
with every `.` replaced by `_`: a selected artifact always carries the
normalized `name-` prefix and the requested kind's suffix, a file without
that prefix is never selected, and absence of any match is setup_error
(2).  Concretely `node.ext.fs` normalizes to `node_ext_fs`, matches
`node_ext_fs-*.whl` and does not match its dotted spelling. -/
theorem test_artifact_name_matching (pkg inst : String)
    (pool : List String) :
    (∀ f, findArtifact pool pkg inst = some f →
      globMatch (pyReplace pkg "." "_" ++ "-")
        (if inst = "wheel" then ".whl" else ".tar.gz") f = true) ∧
    (∀ (o : Oracle) (s : FSState), s.venvExists pkg = true → s.pool = pool →
      (∀ f ∈ pool, globMatch (pyReplace pkg "." "_" ++ "-")
          (if inst = "wheel" then ".whl" else ".tar.gz") f = false) →
      phase_test pkg inst o s = PhaseResult.exit 2 s) ∧
    pyReplace "node.ext.fs" "." "_" = "node_ext_fs" ∧
    globMatch "node_ext_fs-" ".whl" "node_ext_fs-1.0.0-py3-none-any.whl" =
      true ∧
    globMatch "node_ext_fs-" ".whl" "node.ext.fs-1.0.0-py3-none-any.whl" =
      false ∧
    findArtifact ["node.ext.fs-1.0.0-py3-none-any.whl"] "node.ext.fs"
      "wheel" = none := by
  refine ⟨?_, ?_, by decide, by decide, by decide, by decide⟩
  · intro f hf
    unfold findArtifact at hf
    have hmem : f ∈ pool.filter (fun n =>
        globMatch (pyReplace pkg "." "_" ++ "-")
          (if inst = "wheel" then ".whl" else ".tar.gz") n) :=
      List.mem_of_mem_head? (by simp [hf])
    exact (List.mem_filter.mp hmem).2
  · intro o s hv hpool hnone
    have hfa : findArtifact s.pool pkg inst = none := by
      unfold findArtifact
      rw [hpool, List.filter_eq_nil_iff.mpr (by simpa using hnone)]
      rfl
    simp [phase_test, hv, hfa]

/-- Witness for C10: a pooled artifact named with dots is rejected for
package `node.ext.fs` and the phase returns 2. -/
theorem test_artifact_name_matching_witness :
    { readyState with pool := ["node.ext.fs-1.0.0-py3-none-any.whl"]
        }.venvExists "node.ext.fs" = true ∧
    phase_test "node.ext.fs" "wheel" goodOracle
        { readyState with pool := ["node.ext.fs-1.0.0-py3-none-any.whl"] } =
      PhaseResult.exit 2
        { readyState with pool := ["node.ext.fs-1.0.0-py3-none-any.whl"] } :=
  ⟨rfl,
    (test_artifact_name_matching "node.ext.fs" "wheel"
        ["node.ext.fs-1.0.0-py3-none-any.whl"]).2.1 goodOracle
      { readyState with pool := ["node.ext.fs-1.0.0-py3-none-any.whl"] } rfl
      rfl (by decide)⟩

/-- C8: the environment phase destroys any pre-existing sandbox and
creates a fresh one; two successful consecutive runs leave exactly one
live sandbox for the package, freshly created by the second run
(different generation than the first), with other packages untouched. -/
theorem env_twice_one_fresh_sandbox (pkg : String) (o1 o2 : Oracle)
    (s s1 s2 : FSState)
    (h1 : phase_env pkg o1 s = PhaseResult.exit 0 s1)
    (h2 : phase_env pkg o2 s1 = PhaseResult.exit 0 s2) :
    s1.venv pkg = some { gen := s.clock, pythonOk := true } ∧
    s2.venv pkg = some { gen := s.clock + 1, pythonOk := true } ∧
    s.clock + 1 ≠ s.clock ∧
    (∀ q, q ≠ pkg → s2.venv q = s.venv q) := by
  obtain ⟨hv1, hc1, hrest1, _⟩ := phase_env_success_inv pkg o1 s s1 h1
  obtain ⟨hv2, hc2, hrest2, _⟩ := phase_env_success_inv pkg o2 s1 s2 h2
  refine ⟨hv1, ?_, by omega, ?_⟩
  · rw [hv2, hc1]
  · intro q hq
    rw [hrest2 q hq, hrest1 q hq]

/-- Witness for C8: two concrete env runs from the bare state. -/
theorem env_twice_one_fresh_sandbox_witness :
    phase_env "pkg.a" goodOracle emptyState =
      PhaseResult.exit 0 (exitOf (phase_env "pkg.a" goodOracle emptyState)).2 ∧
    (exitOf (phase_env "pkg.a" goodOracle
        (exitOf (phase_env "pkg.a" goodOracle emptyState)).2)).2.venv "pkg.a" =
      some { gen := 1, pythonOk := true } :=
  ⟨rfl,
    (env_twice_one_fresh_sandbox "pkg.a" goodOracle goodOracle emptyState
        (exitOf (phase_env "pkg.a" goodOracle emptyState)).2
        (exitOf (phase_env "pkg.a" goodOracle
          (exitOf (phase_env "pkg.a" goodOracle emptyState)).2)).2
        rfl rfl).2.1⟩

/-- C6: when the build backend command itself succeeds but the local
build-output directory is missing, empty, or lacks a wheel or an sdist,
the build phase returns validation_failure (1), never success. -/
theorem build_incomplete_output_failure (pkg : String) (o : Oracle)
    (s : FSState) (v : Venv) (d : Option (List String))
    (hv : s.venv pkg = some v) (hpy : v.pythonOk = true)
    (hb : o.buildBackend = some d)
    (hmiss : ∀ files, d = some files →
      files = [] ∨ files.filter (fun n => pyEndsWith n ".whl") = [] ∨
        files.filter (fun n => pyEndsWith n ".tar.gz") = []) :
    ∃ s', phase_build pkg o s = PhaseResult.exit 1 s' := by
  cases d with
  | none => exact ⟨s.setDist pkg none, by simp [phase_build, hv, hpy, hb]⟩
  | some files =>
    rcases hmiss files rfl with h | h | h
    · exact ⟨s.setDist pkg (some files),
        by simp [phase_build, hv, hpy, hb, h]⟩
    · by_cases hf : files = []
      · exact ⟨s.setDist pkg (some files),
          by simp [phase_build, hv, hpy, hb, hf, h]⟩
      · exact ⟨s.setDist pkg (some files),
          by simp [phase_build, hv, hpy, hb, hf, h]⟩
    · by_cases hf : files = []
      · exact ⟨s.setDist pkg (some files),
          by simp [phase_build, hv, hpy, hb, hf]⟩
      · cases hw : (files.filter (fun n => pyEndsWith n ".whl")).head? with
        | none =>
          exact ⟨s.setDist pkg (some files),
            by simp [phase_build, hv, hpy, hb, hf, hw]⟩
        | some w =>
          exact ⟨s.setDist pkg (some files),
            by simp [phase_build, hv, hpy, hb, hf, hw, h]⟩

/-- The all-good oracle whose build backend omits the sdist. -/
def noSdistOracle : Oracle :=
  { goodOracle with
      buildBackend := some (some ["pkg_a-1.0.0-py3-none-any.whl"]) }

/-- Witness for C6: a backend run producing only a wheel. -/
theorem build_incomplete_output_failure_witness :
    readyState.venv "pkg.a" = some { gen := 0, pythonOk := true } ∧
    (∃ s', phase_build "pkg.a" noSdistOracle readyState =
      PhaseResult.exit 1 s') :=
  ⟨rfl,
    build_incomplete_output_failure "pkg.a" noSdistOracle readyState
      { gen := 0, pythonOk := true } (some ["pkg_a-1.0.0-py3-none-any.whl"])
      rfl rfl rfl
      (fun files hf => by
        obtain rfl : files = ["pkg_a-1.0.0-py3-none-any.whl"] :=
          (Option.some.inj hf).symm
        exact Or.inr (Or.inr (by decide)))⟩

/-- The all-good oracle building `pkg.b` at version `2.0.0`. -/
def oracleB : Oracle :=
  { goodOracle with
      buildBackend :=
        some (some ["pkg_b-2.0.0-py3-none-any.whl", "pkg_b-2.0.0.tar.gz"]) }

/-- A state with sandboxes for every package, empty pool, no pin file. -/
def buildState0 : FSState :=
  { emptyState with venv := fun _ => some { gen := 0, pythonOk := true } }

/-- State after building `pkg.a` from `buildState0`. -/
def afterBuildA : FSState :=
  (exitOf (phase_build "pkg.a" goodOracle buildState0)).2

/-- State after building `pkg.a` then `pkg.b`. -/
def afterBuildAB : FSState :=
  (exitOf (phase_build "pkg.b" oracleB afterBuildA)).2

/-- State after building `pkg.a` twice in a row. -/
def afterBuildAA : FSState :=
  (exitOf (phase_build "pkg.a" goodOracle afterBuildA)).2

/-- C3: every successful build phase fully rewrites the pin file so that
it equals exactly the `name==version` lines derived from the wheels in
the current shared pool (never an append to the previous content).
Concretely, building `pkg.a` then `pkg.b` leaves one line for each at
the just-built versions, and rebuilding `pkg.a` leaves exactly one
`pkg-a` line, with no stale duplicate. -/
theorem pin_file_full_rewrite :
    (∀ (pkg : String) (o : Oracle) (s s' : FSState),
      phase_build pkg o s = PhaseResult.exit 0 s' →
      ∃ lines,
        constraintsOf (s'.pool.filter (fun n => pyEndsWith n ".whl")) =
          Except.ok lines ∧
        s'.pinFile = some lines) ∧
    (exitOf (phase_build "pkg.a" goodOracle buildState0)).1 = 0 ∧
    (exitOf (phase_build "pkg.b" oracleB afterBuildA)).1 = 0 ∧
    afterBuildAB.pinFile = some ["pkg-a==1.0.0", "pkg-b==2.0.0"] ∧
    (exitOf (phase_build "pkg.a" goodOracle afterBuildA)).1 = 0 ∧
    afterBuildAA.pinFile = some ["pkg-a==1.0.0"] := by
  refine ⟨?_, by decide, by decide, by decide, by decide, by decide⟩
  intro pkg o s s' h
  obtain ⟨files, wf, sf, lines, hb, hne, hwh, hsd, hcon, hclock, hvenv, hld,
    hldq, hpool, hpin, hsrc2, hv⟩ := phase_build_success_inv pkg o s s' h
  exact ⟨lines, by rw [hpool]; exact hcon, hpin⟩

/-- Witness for C3's universally quantified part at a concrete successful
build. -/
theorem pin_file_full_rewrite_witness :
    phase_build "pkg.a" goodOracle buildState0 =
      PhaseResult.exit 0 afterBuildA ∧
    (∃ lines,
      constraintsOf (afterBuildA.pool.filter (fun n => pyEndsWith n ".whl")) =
        Except.ok lines ∧
      afterBuildA.pinFile = some lines) :=
  ⟨rfl, pin_file_full_rewrite.1 "pkg.a" goodOracle buildState0 afterBuildA rfl⟩

/-- C5: in `--all` mode the phases run in order env, build, check, test,
clean and the first failing phase aborts the run: when check fails after
env and build succeeded, only env, build and check were entered (test and
clean never run), the process exit code is 1, and the sandbox and local
build output still exist in the final state. -/
theorem all_mode_fail_fast_on_check_failure (pkg : String) (t : Int)
    (inst : String) (os : AllOracles) (s s1 s2 s3 : FSState)
    (hsrc : s.srcExists pkg = true)
    (h1 : phase_env pkg os.env s = PhaseResult.exit 0 s1)
    (h2 : phase_build pkg os.build s1 = PhaseResult.exit 0 s2)
    (h3 : phase_check pkg t os.check s2 = PhaseResult.exit 1 s3) :
    runAll pkg t inst os s = (1, s3, ["env", "build", "check"]) ∧
    (mainEntry pkg PhaseSel.all t inst os s).1 = 1 ∧
    s3.venvExists pkg = true ∧ s3.distExists pkg = true := by
  have hs3 : s3 = s2 := phase_check_state_eq pkg t os.check s2 1 s3 h3
  obtain ⟨files, wf, sf, lines, hb, hne, hwh, hsd, hcon, hclock, hvenv2, hld2,
    hldq, hpool, hpin, hsrc2, hv1s⟩ :=
    phase_build_success_inv pkg os.build s1 s2 h2
  obtain ⟨hv1, hc1, hvq1, hld1, hpool1, hpin1, hsrcx⟩ :=
    phase_env_success_inv pkg os.env s s1 h1
  have hrun : runAll pkg t inst os s = (1, s3, ["env", "build", "check"]) := by
    simp [runAll, h1, h2, h3]
  refine ⟨hrun, ?_, ?_, ?_⟩
  · simp [mainEntry, hsrc, hrun]
  · subst hs3
    simp [FSState.venvExists, hvenv2, hv1]
  · subst hs3
    simp [FSState.distExists, hld2]

/-- The per-phase oracles of a run whose check phase sees a 6/10 pyroma
score. -/
def failCheckOracles : AllOracles :=
  { env := goodOracle, build := goodOracle, check := scoreOracle,
    testO := goodOracle, clean := goodOracle }

/-- State after a successful env phase for `pkg.a` from the bare
state. -/
def cState1 : FSState := (exitOf (phase_env "pkg.a" goodOracle emptyState)).2

/-- State after env then build for `pkg.a`. -/
def cState2 : FSState :=
  (exitOf (phase_build "pkg.a" goodOracle cState1)).2

/-- Witness for C5: a concrete `--all` run whose check phase fails with a
below-threshold score. -/
theorem all_mode_fail_fast_on_check_failure_witness :
    emptyState.srcExists "pkg.a" = true ∧
    runAll "pkg.a" 8 "wheel" failCheckOracles emptyState =
      (1, cState2, ["env", "build", "check"]) ∧
    (mainEntry "pkg.a" PhaseSel.all 8 "wheel" failCheckOracles emptyState).1 =
      1 :=
  ⟨rfl,
    (all_mode_fail_fast_on_check_failure "pkg.a" 8 "wheel" failCheckOracles
        emptyState cState1 cState2 cState2 rfl rfl rfl rfl).1,
    (all_mode_fail_fast_on_check_failure "pkg.a" 8 "wheel" failCheckOracles
        emptyState cState1 cState2 cState2 rfl rfl rfl rfl).2.1⟩

/-- C1: the process exit code mapping.  Standalone invocations exit with
the phase's own outcome (success 0, validation_failure 1, setup_error 2).
In `--all` mode the first failing phase determines the exit code through
`result if result != 2 else 1`, so a setup_error reached via `--all`
exits 1 while every other nonzero outcome is passed through; a fully
successful run exits 0. -/
theorem exit_code_mapping (pkg : String) (t : Int) (inst : String)
    (os : AllOracles) (s : FSState) (hsrc : s.srcExists pkg = true) :
    (∀ c s1, phase_env pkg os.env s = PhaseResult.exit c s1 →
      mainEntry pkg PhaseSel.env t inst os s = (c, s1)) ∧
    (∀ c s1, phase_build pkg os.build s = PhaseResult.exit c s1 →
      mainEntry pkg PhaseSel.build t inst os s = (c, s1)) ∧
    (∀ c s1, phase_check pkg t os.check s = PhaseResult.exit c s1 →
      mainEntry pkg PhaseSel.check t inst os s = (c, s1)) ∧
    (∀ c s1, phase_test pkg inst os.testO s = PhaseResult.exit c s1 →
      mainEntry pkg PhaseSel.plainTest t inst os s = (c, s1)) ∧
    (∀ c s1, phase_clean pkg os.clean s = PhaseResult.exit c s1 →
      mainEntry pkg PhaseSel.clean t inst os s = (c, s1)) ∧
    (∀ c s1, c ≠ 0 → phase_env pkg os.env s = PhaseResult.exit c s1 →
      (mainEntry pkg PhaseSel.all t inst os s).1 = if c = 2 then 1 else c) ∧
    (∀ s1 c s2, phase_env pkg os.env s = PhaseResult.exit 0 s1 → c ≠ 0 →
      phase_build pkg os.build s1 = PhaseResult.exit c s2 →
      (mainEntry pkg PhaseSel.all t inst os s).1 = if c = 2 then 1 else c) ∧
    (∀ s1 s2 c s3, phase_env pkg os.env s = PhaseResult.exit 0 s1 →
      phase_build pkg os.build s1 = PhaseResult.exit 0 s2 → c ≠ 0 →
      phase_check pkg t os.check s2 = PhaseResult.exit c s3 →
      (mainEntry pkg PhaseSel.all t inst os s).1 = if c = 2 then 1 else c) ∧
    (∀ s1 s2 s3 c s4, phase_env pkg os.env s = PhaseResult.exit 0 s1 →
      phase_build pkg os.build s1 = PhaseResult.exit 0 s2 →
      phase_check pkg t os.check s2 = PhaseResult.exit 0 s3 → c ≠ 0 →
      phase_test pkg inst os.testO s3 = PhaseResult.exit c s4 →
      (mainEntry pkg PhaseSel.all t inst os s).1 = if c = 2 then 1 else c) ∧
    (∀ s1 s2 s3 s4 c s5, phase_env pkg os.env s = PhaseResult.exit 0 s1 →
      phase_build pkg os.build s1 = PhaseResult.exit 0 s2 →
      phase_check pkg t os.check s2 = PhaseResult.exit 0 s3 →
      phase_test pkg inst os.testO s3 = PhaseResult.exit 0 s4 → c ≠ 0 →
      phase_clean pkg os.clean s4 = PhaseResult.exit c s5 →
      (mainEntry pkg PhaseSel.all t inst os s).1 = if c = 2 then 1 else c) ∧
    (∀ s1 s2 s3 s4 s5, phase_env pkg os.env s = PhaseResult.exit 0 s1 →
      phase_build pkg os.build s1 = PhaseResult.exit 0 s2 →
      phase_check pkg t os.check s2 = PhaseResult.exit 0 s3 →
      phase_test pkg inst os.testO s3 = PhaseResult.exit 0 s4 →
      phase_clean pkg os.clean s4 = PhaseResult.exit 0 s5 →
      (mainEntry pkg PhaseSel.all t inst os s).1 = 0) := by
  refine ⟨?_, ?_, ?_, ?_, ?_, ?_, ?_, ?_, ?_, ?_, ?_⟩
  · intro c s1 h
    simp [mainEntry, hsrc, h, exitOf]
  · intro c s1 h
    simp [mainEntry, hsrc, h, exitOf]
  · intro c s1 h
    simp [mainEntry, hsrc, h, exitOf]
  · intro c s1 h
    simp [mainEntry, hsrc, h, exitOf]
  · intro c s1 h
    simp [mainEntry, hsrc, h, exitOf]
  · intro c s1 hc h
    simp [mainEntry, hsrc, runAll, h, hc]
  · intro s1 c s2 h1 hc h2
    simp [mainEntry, hsrc, runAll, h1, h2, hc]
  · intro s1 s2 c s3 h1 h2 hc h3
    simp [mainEntry, hsrc, runAll, h1, h2, h3, hc]
  · intro s1 s2 s3 c s4 h1 h2 h3 hc h4
    simp [mainEntry, hsrc, runAll, h1, h2, h3, h4, hc]
  · intro s1 s2 s3 s4 c s5 h1 h2 h3 h4 hc h5
    simp [mainEntry, hsrc, runAll, h1, h2, h3, h4, h5, hc]
  · intro s1 s2 s3 s4 s5 h1 h2 h3 h4 h5
    simp [mainEntry, hsrc, runAll, h1, h2, h3, h4, h5]

/-- The per-phase oracles of an `--all` run for a package whose backend
names its artifacts without the normalized package prefix, so the test
phase hits a setup_error inside `--all`. -/
def mismatchOracles : AllOracles :=
  { env := goodOracle,
    build :=
      { goodOracle with
          buildBackend :=
            some (some ["other-1.0.0-py3-none-any.whl", "other-1.0.0.tar.gz"]) },
    check := goodOracle, testO := goodOracle, clean := goodOracle }

/-- State after env for `pkg.a` under `mismatchOracles`. -/
def mState1 : FSState := (exitOf (phase_env "pkg.a" goodOracle emptyState)).2

/-- State after env then the mismatching build. -/
def mState2 : FSState :=
  (exitOf (phase_build "pkg.a" mismatchOracles.build mState1)).2

/-- Witness for C1: a standalone test phase hitting setup_error exits 2,
while the same setup_error reached via `--all` exits 1. -/
theorem exit_code_mapping_witness :
    emptyState.srcExists "pkg.a" = true ∧
    mainEntry "pkg.a" PhaseSel.plainTest 8 "wheel" mismatchOracles
        emptyState = (2, emptyState) ∧
    (mainEntry "pkg.a" PhaseSel.all 8 "wheel" mismatchOracles emptyState).1 =
      1 := by
  have h := exit_code_mapping "pkg.a" 8 "wheel" mismatchOracles emptyState rfl
  refine ⟨rfl, h.2.2.2.1 2 emptyState rfl, ?_⟩
  have := h.2.2.2.2.2.2.2.2.1 mState1 mState2 mState2 2 mState2 rfl rfl rfl
    (by decide) rfl
  simpa using this
